import Mathlib

/-!
Shallow embedding of src/src/data_structures.rs (didnet/groth16).

The repository code is generic over an external pairing engine
E: PairingEngine; the per-group-element codec (E::G1Affine::write/read and
friends) is external to the repository.  We therefore model the byte stream
at the granularity the repository manipulates it: a list of tokens, one
token per group element written through the external codec.  A Token
carries the element it encodes; the constructor records which codec
(G1-affine, G2-affine, Fqk, prepared-G2) produced it, mirroring the fact
that each point type has its own fixed-width encoding.  The extra
constructor Token.len models an explicit in-stream length field (used only
by the spec-described self-describing layout, which does not occur in the
ToBytes implementations of the source).

Rust write functions append to a writer; we return the emitted token list.
Rust read functions take a reader and call .unwrap() on each element read,
panicking on failure; we model a read as a function from the stream to
Option (value, remaining stream), where none models the panic/abort.
-/

namespace Groth16

/-- One element written to the stream through the external point codec. -/
inductive Token (G1 G2 Fqk G2P : Type) where
  | g1 : G1 → Token G1 G2 Fqk G2P
  | g2 : G2 → Token G1 G2 Fqk G2P
  | fqk : Fqk → Token G1 G2 Fqk G2P
  | g2p : G2P → Token G1 G2 Fqk G2P
  | len : Nat → Token G1 G2 Fqk G2P
deriving DecidableEq

/-- True exactly on an in-stream length field. -/
def Token.isLen {G1 G2 Fqk G2P : Type} : Token G1 G2 Fqk G2P → Bool
  | .len _ => true
  | _ => false

/-- A proof in the Groth16 SNARK (src lines 10-18). -/
structure Proof (G1 G2 : Type) where
  a : G1
  b : G2
  c : G1
deriving DecidableEq

/-- A verification key in the Groth16 SNARK (src lines 43-55). -/
structure VerifyingKey (G1 G2 : Type) where
  alpha_g1 : G1
  beta_g2 : G2
  gamma_g2 : G2
  delta_g2 : G2
  gamma_abc_g1 : List G1
deriving DecidableEq

/-- Preprocessed verification key parameters (src lines 101-111). -/
structure PreparedVerifyingKey (G1 G2 Fqk G2P : Type) where
  vk : VerifyingKey G1 G2
  alpha_g1_beta_g2 : Fqk
  gamma_g2_neg_pc : G2P
  delta_g2_neg_pc : G2P
deriving DecidableEq

/-- Proving key size descriptor (src lines 150-164). -/
structure KeySize where
  vk_len : Nat
  a_len : Nat
  b_g1_len : Nat
  b_g2_len : Nat
  h_len : Nat
  l_len : Nat
deriving DecidableEq

/-- The prover key for the Groth16 zkSNARK (src lines 167-185). -/
structure ProvingKey (G1 G2 : Type) where
  vk : VerifyingKey G1 G2
  beta_g1 : G1
  delta_g1 : G1
  a_query : List G1
  b_g1_query : List G1
  b_g2_query : List G2
  h_query : List G1
  l_query : List G1
deriving DecidableEq

variable {G1 G2 Fqk G2P : Type}

/-- Model of E::G1Affine::read through the external codec: succeeds exactly
when the next stream token is a G1 element. -/
def readG1 : List (Token G1 G2 Fqk G2P) → Option (G1 × List (Token G1 G2 Fqk G2P))
  | Token.g1 v :: rest => some (v, rest)
  | _ => none

/-- Model of E::G2Affine::read through the external codec. -/
def readG2 : List (Token G1 G2 Fqk G2P) → Option (G2 × List (Token G1 G2 Fqk G2P))
  | Token.g2 v :: rest => some (v, rest)
  | _ => none

/-- Model of the repeated read loop `for _ in 0..n { let q = read(..).unwrap(); v.push(q) }`
used by VerifyingKey::read and ProvingKey::read. -/
def readN {α : Type} (rd : List (Token G1 G2 Fqk G2P) → Option (α × List (Token G1 G2 Fqk G2P))) :
    Nat → List (Token G1 G2 Fqk G2P) → Option (List α × List (Token G1 G2 Fqk G2P))
  | 0, s => some ([], s)
  | n + 1, s =>
    (rd s).bind fun p =>
      (readN rd n p.2).bind fun q =>
        some (p.1 :: q.1, q.2)

/-- Proof::write (src lines 20-27): writes a, b, c in that order. -/
def Proof.write (p : Proof G1 G2) : List (Token G1 G2 Fqk G2P) :=
  Token.g1 p.a :: Token.g2 p.b :: Token.g1 p.c :: []

/-- VerifyingKey::write, the ToBytes impl (src lines 57-68): the four fixed
elements, then each element of gamma_abc_g1 in order, with no length field. -/
def VerifyingKey.write (vk : VerifyingKey G1 G2) : List (Token G1 G2 Fqk G2P) :=
  Token.g1 vk.alpha_g1 :: Token.g2 vk.beta_g2 :: Token.g2 vk.gamma_g2 ::
    Token.g2 vk.delta_g2 :: vk.gamma_abc_g1.map Token.g1

/-- VerifyingKey::read (src lines 72-84): reads the four fixed elements, then
exactly len G1 points into gamma_abc_g1.  Each source .unwrap() is modeled by
Option propagation. -/
def VerifyingKey.read (s : List (Token G1 G2 Fqk G2P)) (len : Nat) :
    Option (VerifyingKey G1 G2 × List (Token G1 G2 Fqk G2P)) :=
  (readG1 s).bind fun pa =>
    (readG2 pa.2).bind fun pb =>
      (readG2 pb.2).bind fun pc =>
        (readG2 pc.2).bind fun pd =>
          (readN readG1 len pd.2).bind fun pv =>
            some (⟨pa.1, pb.1, pc.1, pd.1, pv.1⟩, pv.2)

/-- PreparedVerifyingKey::write (src lines 136-144): the embedded vk via
VerifyingKey::write (the ToBytes impl), then alpha_g1_beta_g2, then
gamma_g2_neg_pc, then delta_g2_neg_pc. -/
def PreparedVerifyingKey.write (pvk : PreparedVerifyingKey G1 G2 Fqk G2P) :
    List (Token G1 G2 Fqk G2P) :=
  VerifyingKey.write pvk.vk ++
    (Token.fqk pvk.alpha_g1_beta_g2 :: Token.g2p pvk.gamma_g2_neg_pc ::
      Token.g2p pvk.delta_g2_neg_pc :: [])

/-- ProvingKey::write (src lines 187-209): the embedded vk, then beta_g1 and
delta_g1, then the five query vectors back-to-back, no length data anywhere. -/
def ProvingKey.write (pk : ProvingKey G1 G2) : List (Token G1 G2 Fqk G2P) :=
  VerifyingKey.write pk.vk ++
    (Token.g1 pk.beta_g1 :: Token.g1 pk.delta_g1 ::
      (pk.a_query.map Token.g1 ++
        (pk.b_g1_query.map Token.g1 ++
          (pk.b_g2_query.map Token.g2 ++
            (pk.h_query.map Token.g1 ++ pk.l_query.map Token.g1)))))

/-- ProvingKey::read (src lines 213-249): reads the embedded vk with
key_size.vk_len, then beta_g1, delta_g1, then the five query vectors with the
lengths from key_size, in write order. -/
def ProvingKey.read (s : List (Token G1 G2 Fqk G2P)) (key_size : KeySize) :
    Option (ProvingKey G1 G2 × List (Token G1 G2 Fqk G2P)) :=
  (VerifyingKey.read s key_size.vk_len).bind fun pvk =>
    (readG1 pvk.2).bind fun pb =>
      (readG1 pb.2).bind fun pd =>
        (readN readG1 key_size.a_len pd.2).bind fun pa =>
          (readN readG1 key_size.b_g1_len pa.2).bind fun pb1 =>
            (readN readG2 key_size.b_g2_len pb1.2).bind fun pb2 =>
              (readN readG1 key_size.h_len pb2.2).bind fun ph =>
                (readN readG1 key_size.l_len ph.2).bind fun pl =>
                  some (⟨pvk.1, pb.1, pd.1, pa.1, pb1.1, pb2.1, ph.1, pl.1⟩, pl.2)

/-- ProvingKey::size (src lines 252-261). -/
def ProvingKey.size (pk : ProvingKey G1 G2) : KeySize :=
  { vk_len := pk.vk.gamma_abc_g1.length
    a_len := pk.a_query.length
    b_g1_len := pk.b_g1_query.length
    b_g2_len := pk.b_g2_query.length
    h_len := pk.h_query.length
    l_len := pk.l_query.length }

/-- Modelled from the spec: the self-describing VerifyingKey layout of
spec sections 4.2 and 6 (the four fixed elements, then an explicit length
field, then the gamma_abc_g1 elements).  No function in src/ writes this
layout; it is stated only to compare against the spec's claim about
PreparedVerifyingKey::write. -/
def vkWriteSelfDescribing (vk : VerifyingKey G1 G2) : List (Token G1 G2 Fqk G2P) :=
  Token.g1 vk.alpha_g1 :: Token.g2 vk.beta_g2 :: Token.g2 vk.gamma_g2 ::
    Token.g2 vk.delta_g2 :: Token.len vk.gamma_abc_g1.length ::
      vk.gamma_abc_g1.map Token.g1

/-- Modelled from the spec: the PreparedVerifyingKey layout claimed in spec
section 6, embedding the VerifyingKey in self-describing form. -/
def pvkWriteClaimed (pvk : PreparedVerifyingKey G1 G2 Fqk G2P) :
    List (Token G1 G2 Fqk G2P) :=
  vkWriteSelfDescribing pvk.vk ++
    (Token.fqk pvk.alpha_g1_beta_g2 :: Token.g2p pvk.gamma_g2_neg_pc ::
      Token.g2p pvk.delta_g2_neg_pc :: [])

/-- Modelled from the spec: crate::prepare_verifying_key, called by the
From impl at src lines 119-123 but whose defining file is not under src/.
Per spec section 4.4 it keeps the VerifyingKey and caches
pairing(alpha_g1, beta_g2), prepare(-gamma_g2) and prepare(-delta_g2);
the pairing engine operations are abstract parameters. -/
def prepare_verifying_key (pairing : G1 → G2 → Fqk) (negG2 : G2 → G2)
    (prepareG2 : G2 → G2P) (vk : VerifyingKey G1 G2) :
    PreparedVerifyingKey G1 G2 Fqk G2P :=
  { vk := vk
    alpha_g1_beta_g2 := pairing vk.alpha_g1 vk.beta_g2
    gamma_g2_neg_pc := prepareG2 (negG2 vk.gamma_g2)
    delta_g2_neg_pc := prepareG2 (negG2 vk.delta_g2) }

/-- From impl for PreparedVerifyingKey (src lines 119-123). -/
def PreparedVerifyingKey.ofVk (pairing : G1 → G2 → Fqk) (negG2 : G2 → G2)
    (prepareG2 : G2 → G2P) (vk : VerifyingKey G1 G2) :
    PreparedVerifyingKey G1 G2 Fqk G2P :=
  prepare_verifying_key pairing negG2 prepareG2 vk

/-- From impl for VerifyingKey (src lines 113-117): returns other.vk. -/
def VerifyingKey.ofPrepared (pvk : PreparedVerifyingKey G1 G2 Fqk G2P) :
    VerifyingKey G1 G2 :=
  pvk.vk

/-! Helper lemmas about the element readers and the read loop. -/

theorem readG1_cons (v : G1) (rest : List (Token G1 G2 Fqk G2P)) :
    readG1 (Token.g1 v :: rest) = some (v, rest) := rfl

theorem readG2_cons (v : G2) (rest : List (Token G1 G2 Fqk G2P)) :
    readG2 (Token.g2 v :: rest) = some (v, rest) := rfl

theorem readG1_eq_some {s rest : List (Token G1 G2 Fqk G2P)} {v : G1}
    (h : readG1 s = some (v, rest)) : s = Token.g1 v :: rest := by
  match s with
  | [] => exact absurd h (by simp [readG1])
  | Token.g1 w :: ts =>
    simp only [readG1, Option.some.injEq, Prod.mk.injEq] at h
    simp [h.1, h.2]
  | Token.g2 w :: ts => exact absurd h (by simp [readG1])
  | Token.fqk w :: ts => exact absurd h (by simp [readG1])
  | Token.g2p w :: ts => exact absurd h (by simp [readG1])
  | Token.len w :: ts => exact absurd h (by simp [readG1])

theorem readG2_eq_some {s rest : List (Token G1 G2 Fqk G2P)} {v : G2}
    (h : readG2 s = some (v, rest)) : s = Token.g2 v :: rest := by
  match s with
  | [] => exact absurd h (by simp [readG2])
  | Token.g1 w :: ts => exact absurd h (by simp [readG2])
  | Token.g2 w :: ts =>
    simp only [readG2, Option.some.injEq, Prod.mk.injEq] at h
    simp [h.1, h.2]
  | Token.fqk w :: ts => exact absurd h (by simp [readG2])
  | Token.g2p w :: ts => exact absurd h (by simp [readG2])
  | Token.len w :: ts => exact absurd h (by simp [readG2])

theorem readN_encode {α : Type}
    (rd : List (Token G1 G2 Fqk G2P) → Option (α × List (Token G1 G2 Fqk G2P)))
    (enc : α → Token G1 G2 Fqk G2P)
    (hrd : ∀ (v : α) (r : List (Token G1 G2 Fqk G2P)), rd (enc v :: r) = some (v, r)) :
    ∀ (vs : List α) (rest : List (Token G1 G2 Fqk G2P)),
      readN rd vs.length (vs.map enc ++ rest) = some (vs, rest) := by
  intro vs
  induction vs with
  | nil => intro rest; rfl
  | cons v vs ih =>
    intro rest
    simp [readN, hrd, ih rest]

theorem readN_g1 (vs : List G1) (rest : List (Token G1 G2 Fqk G2P)) :
    readN readG1 vs.length (vs.map Token.g1 ++ rest) = some (vs, rest) :=
  readN_encode readG1 Token.g1 (fun _ _ => rfl) vs rest

theorem readN_g2 (vs : List G2) (rest : List (Token G1 G2 Fqk G2P)) :
    readN readG2 vs.length (vs.map Token.g2 ++ rest) = some (vs, rest) :=
  readN_encode readG2 Token.g2 (fun _ _ => rfl) vs rest

theorem readN_length {α : Type}
    (rd : List (Token G1 G2 Fqk G2P) → Option (α × List (Token G1 G2 Fqk G2P))) :
    ∀ (n : Nat) (s : List (Token G1 G2 Fqk G2P)) (vs : List α)
      (rest : List (Token G1 G2 Fqk G2P)),
      readN rd n s = some (vs, rest) → vs.length = n := by
  intro n
  induction n with
  | zero =>
    intro s vs rest h
    simp only [readN, Option.some.injEq, Prod.mk.injEq] at h
    simp [← h.1]
  | succ n ih =>
    intro s vs rest h
    simp only [readN, Option.bind_eq_some, Option.some.injEq, Prod.mk.injEq] at h
    obtain ⟨p, hp, q, hq, hvs, hrest⟩ := h
    have := ih p.2 q.1 q.2 (by simpa using hq)
    simp [← hvs, this]

theorem readN_consumed {α : Type}
    (rd : List (Token G1 G2 Fqk G2P) → Option (α × List (Token G1 G2 Fqk G2P)))
    (enc : α → Token G1 G2 Fqk G2P)
    (hrd : ∀ (s r : List (Token G1 G2 Fqk G2P)) (v : α),
      rd s = some (v, r) → s = enc v :: r) :
    ∀ (n : Nat) (s : List (Token G1 G2 Fqk G2P)) (vs : List α)
      (rest : List (Token G1 G2 Fqk G2P)),
      readN rd n s = some (vs, rest) → s = vs.map enc ++ rest := by
  intro n
  induction n with
  | zero =>
    intro s vs rest h
    simp only [readN, Option.some.injEq, Prod.mk.injEq] at h
    simp [← h.1, ← h.2]
  | succ n ih =>
    intro s vs rest h
    simp only [readN, Option.bind_eq_some, Option.some.injEq, Prod.mk.injEq] at h
    obtain ⟨p, hp, q, hq, hvs, hrest⟩ := h
    have hs : s = enc p.1 :: p.2 := hrd s p.2 p.1 (by simpa using hp)
    have htail : p.2 = q.1.map enc ++ q.2 := ih p.2 q.1 q.2 (by simpa using hq)
    subst hrest
    simp [hs, htail, ← hvs]

/-! Helper lemmas about the VerifyingKey and ProvingKey codecs. -/

theorem vk_read_write_append (vk : VerifyingKey G1 G2)
    (rest : List (Token G1 G2 Fqk G2P)) :
    VerifyingKey.read (VerifyingKey.write vk ++ rest) vk.gamma_abc_g1.length =
      some (vk, rest) := by
  simp [VerifyingKey.read, VerifyingKey.write, readG1, readG2, readN_g1]

theorem vk_read_inv {s rest : List (Token G1 G2 Fqk G2P)} {len : Nat}
    {vk : VerifyingKey G1 G2}
    (h : VerifyingKey.read s len = some (vk, rest)) :
    s = VerifyingKey.write vk ++ rest ∧ vk.gamma_abc_g1.length = len := by
  simp only [VerifyingKey.read, Option.bind_eq_some, Option.some.injEq,
    Prod.mk.injEq] at h
  obtain ⟨pa, ha, pb, hb, pc, hc, pd, hd, pv, hv, hvk, hrest⟩ := h
  have hsa := readG1_eq_some (by simpa using ha)
  have hsb := readG2_eq_some (by simpa using hb)
  have hsc := readG2_eq_some (by simpa using hc)
  have hsd := readG2_eq_some (by simpa using hd)
  have hsv := readN_consumed readG1 Token.g1
    (fun _ _ _ hx => readG1_eq_some hx) len pd.2 pv.1 pv.2 (by simpa using hv)
  have hlen := readN_length readG1 len pd.2 pv.1 pv.2 (by simpa using hv)
  subst hrest
  constructor
  · simp [← hvk, VerifyingKey.write, hsa, hsb, hsc, hsd, hsv]
  · simp [← hvk, hlen]

theorem pk_read_write_append (pk : ProvingKey G1 G2)
    (rest : List (Token G1 G2 Fqk G2P)) :
    ProvingKey.read (ProvingKey.write pk ++ rest) (ProvingKey.size pk) =
      some (pk, rest) := by
  simp [ProvingKey.read, ProvingKey.write, ProvingKey.size, List.append_assoc,
    vk_read_write_append, readG1, readN_g1, readN_g2]

theorem pk_read_size {s rest : List (Token G1 G2 Fqk G2P)} {ks : KeySize}
    {pk : ProvingKey G1 G2}
    (h : ProvingKey.read s ks = some (pk, rest)) :
    ProvingKey.size pk = ks := by
  simp only [ProvingKey.read, Option.bind_eq_some, Option.some.injEq,
    Prod.mk.injEq] at h
  obtain ⟨pvk, hvk, pb, hb, pd, hd, pa, ha, pb1, hb1, pb2, hb2, ph, hh, pl, hl,
    hpk, hrest⟩ := h
  have hvklen := (vk_read_inv (by simpa using hvk)).2
  have hal := readN_length readG1 ks.a_len pd.2 pa.1 pa.2 (by simpa using ha)
  have hb1l := readN_length readG1 ks.b_g1_len pa.2 pb1.1 pb1.2 (by simpa using hb1)
  have hb2l := readN_length readG2 ks.b_g2_len pb1.2 pb2.1 pb2.2 (by simpa using hb2)
  have hhl := readN_length readG1 ks.h_len pb2.2 ph.1 ph.2 (by simpa using hh)
  have hll := readN_length readG1 ks.l_len ph.2 pl.1 pl.2 (by simpa using hl)
  subst hpk
  cases ks
  simp_all [ProvingKey.size]

theorem all_not_isLen_map_g1 :
    ∀ l : List G1, ((l.map Token.g1 : List (Token G1 G2 Fqk G2P)).all fun t => ! t.isLen) = true
  | [] => rfl
  | v :: l => by simp [Token.isLen, all_not_isLen_map_g1 l]

theorem noLenToken_vk_write (vk : VerifyingKey G1 G2) :
    ((VerifyingKey.write vk : List (Token G1 G2 Fqk G2P)).all fun t => ! t.isLen) = true := by
  simp [VerifyingKey.write, Token.isLen, all_not_isLen_map_g1]

/-! The claims. -/

/-- C1: for every ProvingKey pk (including ones with zero-length query
vectors), computing ks = pk.size(), size-guided-encoding pk with
ProvingKey::write, then size-guided-decoding the result with
ProvingKey::read using ks yields a ProvingKey equal to pk (with the whole
stream consumed). -/
theorem c1_provingKey_size_write_read_roundtrip (pk : ProvingKey G1 G2) :
    ProvingKey.read (ProvingKey.write pk) (ProvingKey.size pk) =
      some (pk, ([] : List (Token G1 G2 Fqk G2P))) := by
  simpa using pk_read_write_append pk []

/-- C2 counterexample: a ProvingKey with a_query of length 1, decoded with a
KeySize whose a_len understates the true length as 0, decodes successfully
and silently returns a key with an empty a_query, leaving the surplus
element unconsumed — the claim says such a decode must fail with an error. -/
theorem c2_counterexample :
    ProvingKey.read
        (ProvingKey.write
          (⟨⟨1, 2, 3, 4, []⟩, 5, 6, [7], [], [], [], []⟩ : ProvingKey Nat Nat))
        ⟨0, 0, 0, 0, 0, 0⟩ =
      some (⟨⟨1, 2, 3, 4, []⟩, 5, 6, [], [], [], [], []⟩,
        ([Token.g1 7] : List (Token Nat Nat Nat Nat))) := rfl

/-- C2 (amended): the decode entry points unwrap every element read, so a
failed read aborts (panics) rather than returning an error — modeled here as
an Option-valued read.  Supplying a KeySize differing from the true one
(in particular with an understated field) does not necessarily make the
size-guided ProvingKey decode fail: the decode can succeed silently with a
key of the supplied shorter shape; what holds is that such a decode never
returns a key equal to the originally written one. -/
theorem c2_amended_wrong_keysize_no_roundtrip (ks : KeySize)
    (pk pk2 : ProvingKey G1 G2) (rest rest2 : List (Token G1 G2 Fqk G2P))
    (hks : ks ≠ ProvingKey.size pk)
    (h : ProvingKey.read (ProvingKey.write pk ++ rest) ks = some (pk2, rest2)) :
    pk2 ≠ pk := by
  intro he
  subst he
  exact hks (pk_read_size h).symm

/-- C2 witness: the amended theorem applied at the concrete counterexample
input. -/
theorem c2_amended_witness :
    (⟨0, 0, 0, 0, 0, 0⟩ : KeySize) ≠
        ProvingKey.size
          (⟨⟨1, 2, 3, 4, []⟩, 5, 6, [7], [], [], [], []⟩ : ProvingKey Nat Nat) ∧
      (⟨⟨1, 2, 3, 4, []⟩, 5, 6, [], [], [], [], []⟩ : ProvingKey Nat Nat) ≠
        ⟨⟨1, 2, 3, 4, []⟩, 5, 6, [7], [], [], [], []⟩ :=
  ⟨by decide,
    c2_amended_wrong_keysize_no_roundtrip ⟨0, 0, 0, 0, 0, 0⟩
      ⟨⟨1, 2, 3, 4, []⟩, 5, 6, [7], [], [], [], []⟩
      ⟨⟨1, 2, 3, 4, []⟩, 5, 6, [], [], [], [], []⟩
      [] ([Token.g1 7] : List (Token Nat Nat Nat Nat)) (by decide) rfl⟩

/-- C3 counterexample: on a concrete PreparedVerifyingKey, the stream
produced by PreparedVerifyingKey::write differs from the spec's claimed
layout (which embeds the VerifyingKey in self-describing form with an
explicit length field): the code writes no length field. -/
theorem c3_counterexample :
    PreparedVerifyingKey.write
        (⟨⟨1, 2, 3, 4, []⟩, 5, 6, 7⟩ : PreparedVerifyingKey Nat Nat Nat Nat) ≠
      pvkWriteClaimed ⟨⟨1, 2, 3, 4, []⟩, 5, 6, 7⟩ := by decide

/-- C3 (amended): PreparedVerifyingKey::write produces exactly the embedded
VerifyingKey in the size-guided (compact) form — four fixed elements then
the gamma_abc_g1 elements, with no explicit length field anywhere — followed
by alpha_g1_beta_g2, gamma_g2_neg_pc and delta_g2_neg_pc, in that order. -/
theorem c3_amended_pvk_write_layout (pvk : PreparedVerifyingKey G1 G2 Fqk G2P) :
    PreparedVerifyingKey.write pvk =
        VerifyingKey.write pvk.vk ++
          (Token.fqk pvk.alpha_g1_beta_g2 :: Token.g2p pvk.gamma_g2_neg_pc ::
            Token.g2p pvk.delta_g2_neg_pc :: []) ∧
      ((PreparedVerifyingKey.write pvk).all fun t => ! t.isLen) = true := by
  refine ⟨rfl, ?_⟩
  rw [PreparedVerifyingKey.write, List.all_append, noLenToken_vk_write pvk.vk]
  rfl

/-- C4: ProvingKey::size returns a KeySize whose six fields are exactly the
lengths of the five query vectors and of the embedded verifying key's
gamma_abc_g1; it is a pure function of the key. -/
theorem c4_size_fields (pk : ProvingKey G1 G2) :
    (ProvingKey.size pk).a_len = pk.a_query.length ∧
      (ProvingKey.size pk).b_g1_len = pk.b_g1_query.length ∧
      (ProvingKey.size pk).b_g2_len = pk.b_g2_query.length ∧
      (ProvingKey.size pk).h_len = pk.h_query.length ∧
      (ProvingKey.size pk).l_len = pk.l_query.length ∧
      (ProvingKey.size pk).vk_len = pk.vk.gamma_abc_g1.length :=
  ⟨rfl, rfl, rfl, rfl, rfl, rfl⟩

/-- C5: whenever the size-guided VerifyingKey::read(stream, len) succeeds,
the consumed part of the stream is exactly the four fixed elements
alpha_g1, beta_g2, gamma_g2, delta_g2 in order followed by exactly len G1
points (the returned gamma_abc_g1), and the remaining stream is returned
untouched — no further element is consumed. -/
theorem c5_vk_read_consumes_exactly (s : List (Token G1 G2 Fqk G2P)) (len : Nat)
    (vk : VerifyingKey G1 G2) (rest : List (Token G1 G2 Fqk G2P))
    (h : VerifyingKey.read s len = some (vk, rest)) :
    s = (Token.g1 vk.alpha_g1 :: Token.g2 vk.beta_g2 :: Token.g2 vk.gamma_g2 ::
        Token.g2 vk.delta_g2 :: vk.gamma_abc_g1.map Token.g1) ++ rest ∧
      vk.gamma_abc_g1.length = len := by
  have h2 := vk_read_inv h
  simpa [VerifyingKey.write] using h2

/-- C5 witness: the theorem applied to a concrete six-element stream read
with len = 1, leaving the trailing element unconsumed. -/
theorem c5_witness :
    ([Token.g1 1, Token.g2 2, Token.g2 3, Token.g2 4, Token.g1 9, Token.g1 8] :
        List (Token Nat Nat Nat Nat)) =
        (Token.g1 1 :: Token.g2 2 :: Token.g2 3 :: Token.g2 4 ::
          ([9] : List Nat).map Token.g1) ++ [Token.g1 8] ∧
      ([9] : List Nat).length = 1 :=
  c5_vk_read_consumes_exactly
    [Token.g1 1, Token.g2 2, Token.g2 3, Token.g2 4, Token.g1 9, Token.g1 8]
    1 ⟨1, 2, 3, 4, [9]⟩ [Token.g1 8] rfl

/-- C6: size-guided-encoding a VerifyingKey with VerifyingKey::write and
size-guided-decoding the result with VerifyingKey::read using the correct
length yields an equal VerifyingKey. -/
theorem c6_vk_write_read_roundtrip (vk : VerifyingKey G1 G2) :
    VerifyingKey.read (VerifyingKey.write vk : List (Token G1 G2 Fqk G2P))
        vk.gamma_abc_g1.length = some (vk, []) := by
  simpa using vk_read_write_append vk []

/-- C7: the size-guided VerifyingKey encoding is exactly
alpha_g1, beta_g2, gamma_g2, delta_g2 followed by the gamma_abc_g1 elements
in order, and no length field occurs anywhere in the stream. -/
theorem c7_vk_write_layout (vk : VerifyingKey G1 G2) :
    (VerifyingKey.write vk : List (Token G1 G2 Fqk G2P)) =
        Token.g1 vk.alpha_g1 :: Token.g2 vk.beta_g2 :: Token.g2 vk.gamma_g2 ::
          Token.g2 vk.delta_g2 :: vk.gamma_abc_g1.map Token.g1 ∧
      ((VerifyingKey.write vk : List (Token G1 G2 Fqk G2P)).all fun t => ! t.isLen) = true :=
  ⟨rfl, noLenToken_vk_write vk⟩

/-- C8: converting a VerifyingKey into a PreparedVerifyingKey (the From
impl, which calls prepare_verifying_key) and back (the From impl returning
the embedded vk) yields the original VerifyingKey, for any pairing-engine
operations. -/
theorem c8_vk_prepared_roundtrip (pairing : G1 → G2 → Fqk) (negG2 : G2 → G2)
    (prepareG2 : G2 → G2P) (vk : VerifyingKey G1 G2) :
    VerifyingKey.ofPrepared (PreparedVerifyingKey.ofVk pairing negG2 prepareG2 vk) = vk :=
  rfl

/-- C9: Proof::write produces exactly the encodings of a, b, c in that fixed
order, with nothing else. -/
theorem c9_proof_write_layout (p : Proof G1 G2) :
    (Proof.write p : List (Token G1 G2 Fqk G2P)) =
      Token.g1 p.a :: Token.g2 p.b :: Token.g1 p.c :: [] :=
  rfl

/-- C10: whenever the size-guided ProvingKey::read(stream, ks) succeeds, the
returned key's size() equals the supplied KeySize: each query vector and the
embedded verifying key's gamma_abc_g1 have exactly the lengths stated in ks. -/
theorem c10_read_size_eq_keysize (s : List (Token G1 G2 Fqk G2P)) (ks : KeySize)
    (pk : ProvingKey G1 G2) (rest : List (Token G1 G2 Fqk G2P))
    (h : ProvingKey.read s ks = some (pk, rest)) :
    ProvingKey.size pk = ks :=
  pk_read_size h

/-- C10 witness: the theorem applied to a concrete stream decoded with the
all-zero KeySize. -/
theorem c10_witness :
    ProvingKey.size
        (⟨⟨1, 2, 3, 4, []⟩, 5, 6, [], [], [], [], []⟩ : ProvingKey Nat Nat) =
      ⟨0, 0, 0, 0, 0, 0⟩ :=
  c10_read_size_eq_keysize
    ([Token.g1 1, Token.g2 2, Token.g2 3, Token.g2 4, Token.g1 5, Token.g1 6] :
      List (Token Nat Nat Nat Nat))
    ⟨0, 0, 0, 0, 0, 0⟩ ⟨⟨1, 2, 3, 4, []⟩, 5, 6, [], [], [], [], []⟩ [] rfl

end Groth16
